import Mathlib

/-!
Verification development for the telethon monitor core
(src/telethon/monitor.py): a shallow embedding of the rule-config loader
(load_config_sync, default_config, normalize_list, handle_config_reload)
and of the per-message classification/dispatch handler (message_handler,
save_log_async, notify/alert/AI task creation), together with theorems
about the claims of the specification.

Modelling conventions:
- Machine I/O (file system, Mongo insert, HTTP, Telegram lookups) is
  represented by explicit inputs: the loader takes a ReadResult describing
  what the file system returned; the handler takes the outcome of the
  Mongo insert (the optional log id) and the outcome of the sender
  enrichment lookups as inputs.
- Python dynamic values appearing in the JSON config are modelled by
  PyVal (scalars and flat lists of scalars; nested structures do not
  occur in the fields the monitor reads).
- Python truthiness is modelled explicitly where the source relies on it
  (empty string, empty list, None, integer zero are falsy).
- The fragment of the Python re module that this development needs is
  modelled concretely: literal characters, the dot wildcard and a postfix
  star.  Patterns outside the fragment are treated as failing to compile;
  the only invalid pattern exercised by the claims, "(", is also invalid
  for Python re (missing closing parenthesis), and the valid patterns
  exercised ("ok.*", plain literals) are inside the fragment.
  re.IGNORECASE is modelled by lowering literal atoms at compile time and
  lowering the searched text.
-/

/-- Scalar JSON/Python values as they occur in the monitor's config fields. -/
inductive PyScalar where
  | pnone : PyScalar
  | pstr (s : String) : PyScalar
  | pint (n : Int) : PyScalar
  | pbool (b : Bool) : PyScalar
deriving DecidableEq

/-- A JSON/Python value that may sit in a list-typed config field:
either a scalar or a flat list of scalars. -/
inductive PyVal where
  | scalar (v : PyScalar) : PyVal
  | plist (l : List PyScalar) : PyVal
deriving DecidableEq

/-- Python str() of a scalar value. -/
def scalar_str : PyScalar → String
  | .pnone => "None"
  | .pstr s => s
  | .pint n => toString n
  | .pbool b => if b then "True" else "False"

/-- Python s.strip(): drop leading and trailing whitespace. -/
def py_strip (s : String) : String :=
  String.mk (((s.data.dropWhile (fun c => c.isWhitespace)).reverse.dropWhile
      (fun c => c.isWhitespace)).reverse)

/-- Lowercase a string character-wise (Python s.lower() on the
character repertoire the monitor uses). -/
def str_lower (s : String) : String :=
  String.mk (s.data.map Char.toLower)

/-- Split a character list at newline or comma separators,
mirroring re.split on the class of newline and comma. -/
def split_nl_comma : List Char → List (List Char)
  | [] => [[]]
  | c :: cs =>
    if c = '\n' ∨ c = ',' then
      [] :: split_nl_comma cs
    else
      match split_nl_comma cs with
      | [] => [[c]]
      | g :: gs => (c :: g) :: gs

/-- Split a character list at newlines (Python str.splitlines on the
newline character; other line terminators do not occur in the config). -/
def split_nl : List Char → List (List Char)
  | [] => [[]]
  | c :: cs =>
    if c = '\n' then
      [] :: split_nl cs
    else
      match split_nl cs with
      | [] => [[c]]
      | g :: gs => (c :: g) :: gs

/-- normalize_list from monitor.py: coerce any config value into a list of
stripped, non-empty strings.  A list keeps its stripped non-empty entries;
a string is split at newlines/commas; None becomes the empty list; any
other scalar becomes a singleton of its stripped str() unless blank. -/
def normalize_list : PyVal → List String
  | .scalar .pnone => []
  | .plist l =>
      (l.map (fun v => py_strip (scalar_str v))).filter (fun s => ¬(s = ""))
  | .scalar (.pstr s) =>
      ((split_nl_comma s.data).map (fun g => py_strip (String.mk g))).filter
        (fun p => ¬(p = ""))
  | .scalar v =>
      let s := py_strip (scalar_str v)
      if s = "" then [] else [s]

/-- Does the first list start with the second (character-wise)? -/
def list_starts_with : List Char → List Char → Bool
  | _, [] => true
  | [], _ :: _ => false
  | h :: hs, p :: ps => h == p && list_starts_with hs ps

/-- Contiguous-substring occurrence of pat inside hay, over characters. -/
def list_has_sub (pat : List Char) : List Char → Bool
  | [] => pat.isEmpty
  | c :: cs => list_starts_with (c :: cs) pat || list_has_sub pat cs

/-- Python membership test pat in hay on strings (contiguous substring). -/
def str_contains (hay pat : String) : Bool :=
  list_has_sub pat.data hay.data

/-- One atom of the modelled regex fragment. -/
inductive RAtom where
  | rchar (c : Char) : RAtom
  | rdot : RAtom
deriving DecidableEq

/-- One piece of a modelled pattern: an atom taken once, or starred. -/
inductive RPiece where
  | once (a : RAtom) : RPiece
  | star (a : RAtom) : RPiece
deriving DecidableEq

/-- Characters that are metacharacters for Python re; inside the modelled
fragment any of them other than the dot makes the pattern fail to
compile (the dot is the wildcard atom, the star is handled positionally). -/
def re_metachar (c : Char) : Bool :=
  c = '^' ∨ c = '$' ∨ c = '*' ∨ c = '+' ∨ c = '?' ∨ c = '{' ∨ c = '}' ∨
  c = '[' ∨ c = ']' ∨ c = '\\' ∨ c = '|' ∨ c = '(' ∨ c = ')'

/-- Parse one atom: the dot wildcard or a literal character. -/
def parse_atom (c : Char) : Option RAtom :=
  if c = '.' then some RAtom.rdot
  else if re_metachar c then none
  else some (RAtom.rchar c)

/-- Parse a pattern's characters into pieces; a star following an atom
makes a starred piece.  A star with nothing to repeat, or any unsupported
metacharacter, fails (as Python re.error does on such inputs). -/
def parse_pieces : List Char → Option (List RPiece)
  | [] => some []
  | c :: '*' :: rest =>
    match parse_atom c with
    | none => none
    | some a => (parse_pieces rest).map (fun ps => RPiece.star a :: ps)
  | c :: rest =>
    match parse_atom c with
    | none => none
    | some a => (parse_pieces rest).map (fun ps => RPiece.once a :: ps)

/-- Lower the literal of an atom (compile-time effect of re.IGNORECASE). -/
def lower_atom : RAtom → RAtom
  | .rchar c => .rchar c.toLower
  | .rdot => .rdot

/-- A compiled pattern as published in COMPILED_ALERT_REGEX: the original
pattern text, the IGNORECASE flag the code always passes, and the parsed
(lowered) pieces. -/
structure CompiledPattern where
  pattern : String
  ignoreCase : Bool
  pieces : List RPiece
deriving DecidableEq

/-- re.compile(p, re.IGNORECASE) in the modelled fragment. -/
def re_compile (p : String) : Option CompiledPattern :=
  (parse_pieces p.data).map
    (fun ps => { pattern := p, ignoreCase := true,
                 pieces := ps.map (fun pc =>
                   match pc with
                   | .once a => RPiece.once (lower_atom a)
                   | .star a => RPiece.star (lower_atom a)) })

/-- Does an atom match one character? -/
def atom_match (a : RAtom) (c : Char) : Bool :=
  match a with
  | .rchar c0 => c == c0
  | .rdot => true

/-- All ways a starred atom can consume a leading run of characters:
the original list and every tail obtained by stripping one more
atom-matching character. -/
def strip_star (a : RAtom) : List Char → List (List Char)
  | [] => [[]]
  | c :: cs => (c :: cs) :: (if atom_match a c then strip_star a cs else [])

/-- Match pieces against a prefix of the character list (the remainder of
the text past the match is irrelevant, as for re.search). -/
def match_here : List RPiece → List Char → Bool
  | [], _ => true
  | .once _ :: _, [] => false
  | .once a :: ps, c :: cs => atom_match a c && match_here ps cs
  | .star a :: ps, cs => (strip_star a cs).any (fun cs2 => match_here ps cs2)

/-- Try to match starting at every position of the text (re search). -/
def search_from (ps : List RPiece) : List Char → Bool
  | [] => match_here ps []
  | c :: cs => match_here ps (c :: cs) || search_from ps cs

/-- pattern.search(text): case-insensitive because the pieces were lowered
at compile time and the text is lowered here. -/
def re_search (cp : CompiledPattern) (text : String) : Bool :=
  search_from cp.pieces (str_lower text).data

/-- The normalized config dictionary as cached in CONFIG_CACHE after
load_config_sync applied default_config(), dict.update and
normalize_list.  ai_trigger_users is kept in its raw shape (string or
list); message_handler coerces it per message, as the source does. -/
structure Config where
  keywords : List String
  channels : List String
  alert_keywords : List String
  alert_regex : List String
  alert_target : String
  log_all_messages : Bool
  debug_verbose_message_logs : Bool
  ai_trigger_enabled : Bool
  ai_trigger_users : PyVal
  user_id : Option String
deriving DecidableEq

/-- default_config() from monitor.py (the telegram api credentials are
opaque to the modelled core and omitted).  The user_id key is absent in
the default dictionary, hence none here. -/
def default_config : Config :=
  { keywords := []
    channels := []
    alert_keywords := []
    alert_regex := []
    alert_target := "me"
    log_all_messages := true
    debug_verbose_message_logs := false
    ai_trigger_enabled := false
    ai_trigger_users := PyVal.plist []
    user_id := none }

/-- The raw JSON object parsed from the config file; a none field means
the key is absent so the default survives dict.update.  The two
ai_analysis subfields are modelled with per-field defaults, which is
observationally equal to the source's whole-subobject update followed by
per-field .get defaults. -/
structure RawConfig where
  keywords : Option PyVal := none
  channels : Option PyVal := none
  alert_keywords : Option PyVal := none
  alert_regex : Option PyVal := none
  alert_target : Option String := none
  log_all_messages : Option Bool := none
  debug_verbose_message_logs : Option Bool := none
  ai_trigger_enabled : Option Bool := none
  ai_trigger_users : Option PyVal := none
  user_id : Option String := none
deriving DecidableEq

/-- base = default_config(); base.update(cfg); normalize the four
list-typed fields — lines 240-248 of monitor.py. -/
def normalize_config (raw : RawConfig) : Config :=
  { keywords := normalize_list (raw.keywords.getD (PyVal.plist []))
    channels := normalize_list (raw.channels.getD (PyVal.plist []))
    alert_keywords := normalize_list (raw.alert_keywords.getD (PyVal.plist []))
    alert_regex := normalize_list (raw.alert_regex.getD (PyVal.plist []))
    alert_target := raw.alert_target.getD "me"
    log_all_messages := raw.log_all_messages.getD true
    debug_verbose_message_logs := raw.debug_verbose_message_logs.getD false
    ai_trigger_enabled := raw.ai_trigger_enabled.getD false
    ai_trigger_users := raw.ai_trigger_users.getD (PyVal.plist [])
    user_id := raw.user_id }

/-- The compile loop over alert_regex patterns (lines 253-260): each
pattern compiled independently; the first component collects the
successfully compiled patterns in order, the second collects the
patterns skipped with a warning. -/
def compile_alert_regex : List String → List CompiledPattern × List String
  | [] => ([], [])
  | p :: ps =>
    let rest := compile_alert_regex ps
    match re_compile p with
    | some cp => (cp :: rest.1, rest.2)
    | none => (rest.1, p :: rest.2)

/-- The precomputation of KEYWORDS_LC / ALERT_KEYWORDS_LC (lines 269-270):
keep entries that are non-empty and have non-blank strip, lowered. -/
def precompute_lc (ks : List String) : List String :=
  (ks.filter (fun k => ¬(k = "") ∧ ¬(py_strip k = ""))).map str_lower

/-- The module-level mutable state that load_config_sync writes and
message_handler reads: CONFIG_CACHE (none models the initial empty,
falsy dict), CONFIG_MTIME, COMPILED_ALERT_REGEX, KEYWORDS_LC,
ALERT_KEYWORDS_LC and MONITORED_CHANNELS_SET (a Python set; modelled as
the channels list, membership being all the handler uses). -/
structure MonitorState where
  config_cache : Option Config
  config_mtime : Nat
  compiled_alert_regex : List CompiledPattern
  keywords_lc : List String
  alert_keywords_lc : List String
  monitored_channels_set : List String
deriving DecidableEq

/-- The state at process start, before any load. -/
def initial_state : MonitorState :=
  { config_cache := none
    config_mtime := 0
    compiled_alert_regex := []
    keywords_lc := []
    alert_keywords_lc := []
    monitored_channels_set := [] }

/-- What the file system returned for the config path: the path is
absent, the path is a directory, or a file with a modification time whose
contents either parsed to a raw config or raised on json.load (none). -/
inductive ReadResult where
  | absent : ReadResult
  | isDir : ReadResult
  | file (mtime : Nat) (parsed : Option RawConfig) : ReadResult
deriving DecidableEq

/-- load_config_sync from monitor.py as a state transition.
Absent path (line 214) and directory path (line 222): publish
default_config, reset mtime and compiled regex, leave the precomputed
lists untouched, return.  Existing file: skip entirely when a config is
cached and the mtime is unchanged (line 233).  A json.load failure lands
in the outer except (line 282): publish default_config, clear the
compiled regex, leave mtime and the precomputed lists untouched.  A
successful parse normalizes, publishes the config with the new mtime,
compiles the regex list and precomputes the lowered lists and channel
set. -/
def load_config_sync (rr : ReadResult) (st : MonitorState) : MonitorState :=
  match rr with
  | .absent =>
      { st with config_cache := some default_config
                config_mtime := 0
                compiled_alert_regex := [] }
  | .isDir =>
      { st with config_cache := some default_config
                config_mtime := 0
                compiled_alert_regex := [] }
  | .file mtime parsed =>
    if st.config_cache.isSome ∧ mtime = st.config_mtime then st
    else
      match parsed with
      | none =>
          { st with config_cache := some default_config
                    compiled_alert_regex := [] }
      | some raw =>
        let base := normalize_config raw
        { config_cache := some base
          config_mtime := mtime
          compiled_alert_regex := (compile_alert_regex base.alert_regex).1
          keywords_lc := precompute_lc base.keywords
          alert_keywords_lc := precompute_lc base.alert_keywords
          monitored_channels_set := base.channels }

/-- handle_config_reload (lines 689-699): the push-notification endpoint
immediately runs load_config_sync on the executor. -/
def handle_config_reload (rr : ReadResult) (st : MonitorState) : MonitorState :=
  load_config_sync rr st

/-- Python string truthiness test on an optional string: an absent or
empty string is falsy. -/
def py_opt (o : Option String) : Option String :=
  match o with
  | none => none
  | some s => if s = "" then none else some s

/-- Python a or b on optional strings: keep a when truthy, else b as-is. -/
def py_or (a b : Option String) : Option String :=
  match py_opt a with
  | some x => some x
  | none => b

/-- Python integer-option truthiness: absent or zero is falsy. -/
def py_int_truthy (o : Option Int) : Bool :=
  match o with
  | none => false
  | some n => ¬(n = 0)

/-- Python a or b for optional integers (used for the sender id
fallback): keep a when truthy, else b as-is. -/
def py_or_int (a b : Option Int) : Option Int :=
  match a with
  | some n => if n = 0 then b else some n
  | none => b

/-- " ".join of the truthy names, as in the chat and sender full-name
assembly (None when both are absent or blank). -/
def join_names (f l : Option String) : Option String :=
  match py_opt f, py_opt l with
  | some a, some b => some (a ++ " " ++ b)
  | some a, none => some a
  | none, some b => some b
  | none, none => none

/-- The sender entity returned by event.get_sender() (None when the call
failed or there is no sender). -/
structure SenderEntity where
  id : Option Int
  first_name : Option String
  last_name : Option String
  username : Option String
deriving DecidableEq

/-- The combined outcome of the enrichment lookups (client.get_entity on
the sender id, the message from_id entity, GetFullUserRequest) that the
handler runs to fill missing name fields; each lookup may fail silently,
so each field is optional.  The TTL display-name cache is advisory and
outside the modelled claims; the handler is modelled on its cache-miss
path. -/
structure LookupFields where
  first_name : Option String
  last_name : Option String
  username : Option String
deriving DecidableEq

/-- An inbound Telegram event as the handler reads it. -/
structure Event where
  raw_text : Option String
  chat_id : Int
  chat_title : Option String
  chat_username : Option String
  chat_first_name : Option String
  chat_last_name : Option String
  sender_entity : Option SenderEntity
  event_sender_id : Option Int
  message_id : Nat
deriving DecidableEq

/-- The unified chat display name (lines 744-753): title first, else the
joined first/last name, else the username, else Unknown. -/
def resolve_channel_name (ev : Event) : String :=
  match py_opt ev.chat_title with
  | some t => t
  | none =>
    match join_names ev.chat_first_name ev.chat_last_name with
    | some fn => fn
    | none =>
      match py_opt ev.chat_username with
      | some u => u
      | none => "Unknown"

/-- sender_id resolution (lines 788-790): the entity id, falling back to
event.sender_id when absent or falsy. -/
def resolve_sender_id (ev : Event) : Option Int :=
  py_or_int (ev.sender_entity.bind (fun e => e.id)) ev.event_sender_id

/-- The final local first/last/username values after the enrichment
chain (lines 817-849): the raw entity field, or-else the lookup result. -/
def enriched_first (ev : Event) (lk : LookupFields) : Option String :=
  py_or (ev.sender_entity.bind (fun e => e.first_name)) lk.first_name

def enriched_last (ev : Event) (lk : LookupFields) : Option String :=
  py_or (ev.sender_entity.bind (fun e => e.last_name)) lk.last_name

def enriched_username (ev : Event) (lk : LookupFields) : Option String :=
  py_or (ev.sender_entity.bind (fun e => e.username)) lk.username

/-- The sender display name (lines 851-863, cache-miss path): the joined
full name, else the at-prefixed username, else the sender id, else the
channel display name. -/
def resolve_sender_display (ev : Event) (lk : LookupFields) : String :=
  match join_names (enriched_first ev lk) (enriched_last ev lk) with
  | some fn => fn
  | none =>
    match py_opt (enriched_username ev lk) with
    | some u => "@" ++ u
    | none =>
      match resolve_sender_id ev with
      | some sid => if sid = 0 then resolve_channel_name ev else toString sid
      | none => resolve_channel_name ev

/-- ai_trigger_users coercion (lines 880-882): falsy values become the
empty list, a string is split at newlines into stripped non-blank
entries, a list is used as-is with its elements passed through str().
A non-string, non-list truthy scalar would make the later iteration
raise in Python (dropping the message inside the outer except); no claim
exercises that shape and it is modelled as the singleton of its str(). -/
def coerce_trigger_users : PyVal → List String
  | .scalar .pnone => []
  | .scalar (.pstr s) =>
      if s = "" then []
      else ((split_nl s.data).map (fun g => py_strip (String.mk g))).filter
        (fun u => ¬(u = ""))
  | .plist l => if l = [] then [] else l.map scalar_str
  | .scalar (.pint n) => if n = 0 then [] else [scalar_str (.pint n)]
  | .scalar (.pbool b) => if b then [scalar_str (.pbool true)] else []

/-- The is_trigger_user determination (lines 890-917): only when AI
trigger is enabled, the trigger-user list is non-empty and the sender id
is truthy; the candidate strings are the sender id, the at-prefixed raw
entity username, the raw entity full name and the display name, each
stripped after a truthiness filter; the trigger-user entries are
stripped; a case-insensitive (or exact) equality anywhere sets the
flag. -/
def is_trigger_user_of (cfg : Config) (ev : Event) (lk : LookupFields) : Bool :=
  let users := coerce_trigger_users cfg.ai_trigger_users
  let sid := resolve_sender_id ev
  if cfg.ai_trigger_enabled ∧ ¬(users = []) ∧ py_int_truthy sid then
    let ent_first := ev.sender_entity.bind (fun e => e.first_name)
    let ent_last := ev.sender_entity.bind (fun e => e.last_name)
    let full_name := join_names ent_first ent_last
    let ent_user :=
      match ev.sender_entity with
      | some e => py_opt e.username
      | none => none
    let sender := resolve_sender_display ev lk
    let raw_triggers : List (Option String) :=
      [ (match sid with | some n => some (toString n) | none => none),
        (match ent_user with | some u => some ("@" ++ u) | none => none),
        full_name,
        some sender ]
    let sender_triggers :=
      ((raw_triggers.filterMap id).filter (fun s => ¬(s = ""))).map py_strip
    let normalized := users.map py_strip
    normalized.any (fun t =>
      sender_triggers.any (fun s =>
        str_lower t == str_lower s || t == s))
  else
    false

/-- The monitor-keyword scan (lines 928-935): walk KEYWORDS_LC with its
index; each non-empty lowered keyword contained in the lowered text
contributes the original-cased keyword at the same index of the config
list (falling back to the lowered form past the end). -/
def match_monitor_keywords (keywords_list : List String) (text_lc : String) :
    List String → Nat → List String
  | [], _ => []
  | k_lc :: rest, idx =>
    let tail := match_monitor_keywords keywords_list text_lc rest (idx + 1)
    if ¬(k_lc = "") ∧ str_contains text_lc k_lc then
      keywords_list.getD idx k_lc :: tail
    else
      tail

/-- The alert-keyword scan (lines 939-945): the first non-empty lowered
alert keyword contained in the lowered text, reported with its
original casing at the same index. -/
def find_alert_keyword (alert_list : List String) (text_lc : String) :
    List String → Nat → Option String
  | [], _ => none
  | kw_lc :: rest, idx =>
    if ¬(kw_lc = "") ∧ str_contains text_lc kw_lc then
      some (alert_list.getD idx kw_lc)
    else
      find_alert_keyword alert_list text_lc rest (idx + 1)

/-- The alert-regex scan (lines 948-953): the first compiled pattern
whose search hits the text. -/
def find_alert_regex : List CompiledPattern → String → Option CompiledPattern
  | [], _ => none
  | cp :: rest, text =>
    if re_search cp text then some cp else find_alert_regex rest text

/-- Alert determination (lines 937-953): scan the alert keywords first;
a hit becomes the trigger and is appended to the matched list unless
already present.  Only when no alert keyword hit, scan the compiled
patterns; a hit makes the raw pattern the trigger and appends the
regex-prefixed pseudo-entry to the matched list. -/
def determine_alert (alert_lc alert_list : List String)
    (compiled : List CompiledPattern) (text_lc text : String)
    (matched0 : List String) : Option String × List String :=
  match find_alert_keyword alert_list text_lc alert_lc 0 with
  | some ak => (some ak, if ak ∈ matched0 then matched0 else matched0 ++ [ak])
  | none =>
    match find_alert_regex compiled text with
    | some cp => (some cp.pattern, matched0 ++ ["regex:" ++ cp.pattern])
    | none => (none, matched0)

/-- The Mongo document built by save_log_async (lines 460-474): alerted
is the truthiness of the keyword list; the optional userId attribution
comes from the USER_ID environment variable, falling back to the
config user_id (ObjectId validation is not modelled). -/
structure PersistDoc where
  channel : String
  channelId : String
  sender : String
  message : String
  keywords : List String
  messageId : Nat
  alerted : Bool
  ai_analyzed : Bool
  userId : Option String
deriving DecidableEq

def save_log_doc (env_user_id : Option String) (cfg : Config)
    (channel channelId sender message : String) (keywords : List String)
    (message_id : Nat) : PersistDoc :=
  { channel := channel
    channelId := channelId
    sender := sender
    message := message
    keywords := keywords
    messageId := message_id
    alerted := ¬(keywords = [])
    ai_analyzed := false
    userId := py_or env_user_id cfg.user_id }

/-- The payload of notify_new_message_async (lines 539-548); the
timestamp is wall-clock I/O and not modelled. -/
structure NotifyPayload where
  log_id : String
  userId : Option String
  channel : String
  channelId : String
  sender : String
  message : String
  keywords : List String
  alerted : Bool
deriving DecidableEq

/-- The arguments of send_alert_async as scheduled at line 982. -/
structure AlertTask where
  keyword : String
  message : String
  sender : String
  channel : String
  channelId : String
  messageId : Nat
deriving DecidableEq

/-- Everything one call of message_handler produces: the attempted
persist document, the scheduled notify payload, whether an AI-analysis
task was scheduled, the scheduled alert push, and the classification
outcome itself. -/
structure HandlerResult where
  persist : Option PersistDoc
  notify : Option NotifyPayload
  ai_trigger_task : Bool
  alert_push : Option AlertTask
  matched_keywords : List String
  alert_keyword : Option String
deriving DecidableEq

/-- The result of an early return: nothing dispatched, nothing matched. -/
def empty_result : HandlerResult :=
  { persist := none
    notify := none
    ai_trigger_task := false
    alert_push := none
    matched_keywords := []
    alert_keyword := none }

/-- The classification computed against the cached snapshot for one text
(lines 925-953): the monitor-keyword scan followed by the alert
determination; the pair is the alert trigger (if any) and the matched
keyword list. -/
def classified (st : MonitorState) (text : String) :
    Option String × List String :=
  let config := st.config_cache.getD default_config
  let text_lc := str_lower text
  let matched0 :=
    match_monitor_keywords config.keywords text_lc st.keywords_lc 0
  determine_alert st.alert_keywords_lc config.alert_keywords
    st.compiled_alert_regex text_lc text matched0

/-- The body of message_handler past the empty-text and channel-filter
early returns (lines 779-982): resolve the sender, determine the
AI-trigger flag, classify, and create the persist/notify/AI/alert tasks
exactly as the source schedules them. -/
def handler_core (st : MonitorState) (env_user_id : Option String)
    (ev : Event) (lk : LookupFields) (log_id : Option String)
    (text : String) : HandlerResult :=
  let config := st.config_cache.getD default_config
  let channel_id := toString ev.chat_id
  let channel_name := resolve_channel_name ev
  let sender := resolve_sender_display ev lk
  let is_trigger_user := is_trigger_user_of config ev lk
  let det := classified st text
  if ¬(det.2 = []) ∨ config.log_all_messages then
    { persist := some (save_log_doc env_user_id config channel_name
        channel_id sender text det.2 ev.message_id)
      notify :=
        log_id.map (fun lid =>
          { log_id := lid
            userId := py_or env_user_id config.user_id
            channel := channel_name
            channelId := channel_id
            sender := sender
            message := text
            keywords := det.2
            alerted := ¬(det.2 = [])
            : NotifyPayload })
      ai_trigger_task := is_trigger_user && log_id.isSome
      alert_push :=
        det.1.map (fun ak =>
          { keyword := ak
            message := text
            sender := sender
            channel := channel_name
            channelId := channel_id
            messageId := ev.message_id
            : AlertTask })
      matched_keywords := det.2
      alert_keyword := det.1 }
  else
    { persist := none
      notify := none
      ai_trigger_task := false
      alert_push := none
      matched_keywords := det.2
      alert_keyword := det.1 }

/-- message_handler (lines 705-986) as a function of the module state,
the USER_ID environment variable, the event, the enrichment-lookup
outcome and the Mongo insert outcome (log_id, none when the insert
failed).  Empty or absent text returns before any classification; a
non-empty channel allow-list without the chat id returns before any
keyword work; otherwise handler_core runs against the cached
snapshot. -/
def message_handler (st : MonitorState) (env_user_id : Option String)
    (ev : Event) (lk : LookupFields) (log_id : Option String) :
    HandlerResult :=
  let text := ev.raw_text.getD ""
  if text = "" then empty_result
  else if ¬(st.monitored_channels_set = []) ∧
      ¬(toString ev.chat_id ∈ st.monitored_channels_set) then
    empty_result
  else
    handler_core st env_user_id ev lk log_id text

/-- A published-snapshot coherence predicate: the module state projects a
single cached config — the precomputed lowered keyword lists, the channel
set and the compiled patterns are all derived from that one config, as a
successful load leaves them. -/
def state_coherent (st : MonitorState) : Prop :=
  ∃ cfg, st.config_cache = some cfg ∧
    st.keywords_lc = precompute_lc cfg.keywords ∧
    st.alert_keywords_lc = precompute_lc cfg.alert_keywords ∧
    st.monitored_channels_set = cfg.channels ∧
    st.compiled_alert_regex = (compile_alert_regex cfg.alert_regex).1

/-- An enrichment-lookup outcome where every lookup failed or was
skipped. -/
def lk_none : LookupFields :=
  { first_name := none
    last_name := none
    username := none }

/-- A minimal event carrying the given text in a titled chat, sent by
user 42 with no name fields. -/
def mk_event (txt : Option String) : Event :=
  { raw_text := txt
    chat_id := 7
    chat_title := some "Chan"
    chat_username := none
    chat_first_name := none
    chat_last_name := none
    sender_entity := some { id := some 42
                            first_name := none
                            last_name := none
                            username := none }
    event_sender_id := none
    message_id := 5 }

/-- A raw config whose only explicit field is one monitor keyword. -/
def ex_raw_abc : RawConfig :=
  { keywords := some (PyVal.plist [PyScalar.pstr "abc"]) }

/-- A raw config whose only explicit field is a different monitor
keyword list. -/
def ex_raw_zzz : RawConfig :=
  { keywords := some (PyVal.plist [PyScalar.pstr "zzz"]) }

/-- The state after one successful load of ex_raw_abc at mtime 1. -/
def ex_state_abc : MonitorState :=
  load_config_sync (ReadResult.file 1 (some ex_raw_abc)) initial_state

/-- A snapshot with AI triggering enabled for sender id 42 and
everything else at its default (log_all_messages stays true, no
keywords). -/
def ex1_cfg : Config :=
  { default_config with
      ai_trigger_enabled := true
      ai_trigger_users := PyVal.plist [PyScalar.pstr "42"] }

/-- A coherent published state holding ex1_cfg. -/
def ex1_state : MonitorState :=
  { config_cache := some ex1_cfg
    config_mtime := 1
    compiled_alert_regex := []
    keywords_lc := []
    alert_keywords_lc := []
    monitored_channels_set := [] }

/-- A snapshot with the two alert keywords of the tie-break scenario. -/
def ex4_cfg : Config :=
  { default_config with alert_keywords := ["urgent", "sell"] }

/-- A coherent published state holding ex4_cfg. -/
def ex4_state : MonitorState :=
  { config_cache := some ex4_cfg
    config_mtime := 1
    compiled_alert_regex := []
    keywords_lc := []
    alert_keywords_lc := precompute_lc ex4_cfg.alert_keywords
    monitored_channels_set := [] }

/-- A snapshot with one alert regex pattern and no alert keywords. -/
def ex4r_cfg : Config :=
  { default_config with alert_regex := ["a"] }

/-- A coherent published state holding ex4r_cfg. -/
def ex4r_state : MonitorState :=
  { config_cache := some ex4r_cfg
    config_mtime := 1
    compiled_alert_regex := (compile_alert_regex ex4r_cfg.alert_regex).1
    keywords_lc := []
    alert_keywords_lc := []
    monitored_channels_set := []}

/-- A snapshot with one monitor keyword, for the collect-all-matches
witness. -/
def ex5_cfg : Config :=
  { default_config with keywords := ["Invoice"] }

/-- A coherent published state holding ex5_cfg. -/
def ex5_state : MonitorState :=
  { config_cache := some ex5_cfg
    config_mtime := 1
    compiled_alert_regex := []
    keywords_lc := precompute_lc ex5_cfg.keywords
    alert_keywords_lc := []
    monitored_channels_set := [] }

/-- A state whose allow-list contains only channel id 99. -/
def ex6_state : MonitorState :=
  { config_cache := some default_config
    config_mtime := 1
    compiled_alert_regex := []
    keywords_lc := []
    alert_keywords_lc := []
    monitored_channels_set := ["99"] }

/-- getD at the length of the left part of an append picks the head of
the right part. -/
theorem getD_append_length (pre : List String) (k : String)
    (rest : List String) (d : String) :
    (pre ++ k :: rest).getD pre.length d = k := by
  induction pre with
  | nil => rfl
  | cons h t ih => simpa using ih

/-- The lowered form of a string is empty only for the empty string. -/
theorem str_lower_ne_empty (k : String) (h : ¬(k = "")) :
    ¬(str_lower k = "") := by
  intro he
  apply h
  unfold str_lower at he
  have hd : k.data.map Char.toLower = [] := by
    have : (String.mk (k.data.map Char.toLower)).data = ("" : String).data := by
      rw [he]
    simpa using this
  have hnil : k.data = [] := List.map_eq_nil_iff.mp hd
  exact String.ext hnil

/-- Stripping the empty string yields the empty string, so a string with
a non-blank strip is itself non-empty. -/
theorem ne_empty_of_strip (k : String) (h : ¬(py_strip k = "")) :
    ¬(k = "") := by
  intro he
  apply h
  rw [he]
  rfl

/-- On a list whose entries all strip to something non-blank, the
KEYWORDS_LC precomputation is exactly the lowered list. -/
theorem precompute_lc_of_normalized (ks : List String)
    (h : ∀ k ∈ ks, ¬(py_strip k = "")) :
    precompute_lc ks = ks.map str_lower := by
  unfold precompute_lc
  congr 1
  apply List.filter_eq_self.mpr
  intro k hk
  have h1 := h k hk
  have h2 := ne_empty_of_strip k h1
  simp [h1, h2]

/-- Every keyword of the scanned suffix whose lowered form is non-empty
and occurs in the lowered text is collected (with its original casing)
by the monitor-keyword scan. -/
theorem mem_match_monitor_keywords (text_lc : String) :
    ∀ (post pre : List String) (k : String), k ∈ post →
    ¬(str_lower k = "") → str_contains text_lc (str_lower k) = true →
    k ∈ match_monitor_keywords (pre ++ post) text_lc
        (post.map str_lower) pre.length := by
  intro post
  induction post with
  | nil =>
    intro pre k hk
    simp at hk
  | cons k0 rest ih =>
    intro pre k hk hne hsub
    rw [List.map_cons]
    rcases List.mem_cons.mp hk with rfl | hk2
    · rw [match_monitor_keywords, if_pos ⟨hne, hsub⟩,
        getD_append_length]
      exact List.mem_cons_self _ _
    · have step := ih (pre ++ [k0]) k hk2 hne hsub
      rw [List.append_assoc] at step
      simp only [List.singleton_append, List.length_append,
        List.length_singleton] at step
      rw [match_monitor_keywords]
      by_cases h0 : ¬(str_lower k0 = "") ∧
          str_contains text_lc (str_lower k0) = true
      · rw [if_pos h0]
        exact List.mem_cons_of_mem _ step
      · rw [if_neg h0]
        exact step

/-- The alert-keyword scan over a suffix is the first-match search of
that suffix, reported in original casing. -/
theorem find_alert_keyword_eq (text_lc : String) :
    ∀ (post pre : List String),
    find_alert_keyword (pre ++ post) text_lc (post.map str_lower)
        pre.length
      = post.find? (fun k =>
          !(str_lower k == "") && str_contains text_lc (str_lower k)) := by
  intro post
  induction post with
  | nil => intro pre; rfl
  | cons k0 rest ih =>
    intro pre
    rw [List.map_cons, find_alert_keyword]
    by_cases h0 : ¬(str_lower k0 = "") ∧
        str_contains text_lc (str_lower k0) = true
    · rw [if_pos h0, getD_append_length, List.find?_cons_of_pos]
      simp [h0.1, h0.2]
    · rw [if_neg h0, List.find?_cons_of_neg]
      · have step := ih (pre ++ [k0])
        rw [List.append_assoc] at step
        simpa using step
      · rw [not_and_or] at h0
        rcases h0 with h0 | h0
        · simp at h0
          simp [h0]
        · simp [Bool.and_eq_true]
          intro
          simpa using h0

/-- The alert-regex scan is the first pattern whose search hits. -/
theorem find_alert_regex_eq (l : List CompiledPattern) (text : String) :
    find_alert_regex l text = l.find? (fun cp => re_search cp text) := by
  induction l with
  | nil => rfl
  | cons cp rest ih =>
    rw [find_alert_regex]
    by_cases h : re_search cp text = true
    · rw [if_pos h]
      exact (List.find?_cons_of_pos rest h).symm
    · rw [if_neg h, ih]
      exact (List.find?_cons_of_neg rest (by simpa using h)).symm

/-- Alert determination only ever appends to the matched list. -/
theorem determine_alert_mono (alert_lc alert_list : List String)
    (compiled : List CompiledPattern) (text_lc text : String)
    (matched0 : List String) (k : String) (hk : k ∈ matched0) :
    k ∈ (determine_alert alert_lc alert_list compiled text_lc text
        matched0).2 := by
  unfold determine_alert
  cases find_alert_keyword alert_list text_lc alert_lc 0 with
  | some ak =>
    by_cases h : ak ∈ matched0
    · simpa [h] using hk
    · simp only [h, if_neg]
      simp [List.mem_append, hk]
  | none =>
    cases find_alert_regex compiled text with
    | some cp => simp [List.mem_append, hk]
    | none => simpa using hk

/-- When alert determination ends with an empty matched list, there was
no alert trigger and the incoming matched list was empty too. -/
theorem determine_alert_of_nil (alert_lc alert_list : List String)
    (compiled : List CompiledPattern) (text_lc text : String)
    (matched0 : List String)
    (h : (determine_alert alert_lc alert_list compiled text_lc text
        matched0).2 = []) :
    (determine_alert alert_lc alert_list compiled text_lc text
        matched0).1 = none ∧ matched0 = [] := by
  cases hf : find_alert_keyword alert_list text_lc alert_lc 0 with
  | some ak =>
    simp only [determine_alert, hf] at h ⊢
    by_cases hm : ak ∈ matched0
    · rw [if_pos hm] at h
      subst h
      simp at hm
    · rw [if_neg hm] at h
      simp at h
  | none =>
    cases hr : find_alert_regex compiled text with
    | some cp =>
      simp only [determine_alert, hf, hr] at h
      simp at h
    | none =>
      simp only [determine_alert, hf, hr] at h ⊢
      exact ⟨trivial, h⟩

/-- Empty or absent text makes the handler return before anything. -/
theorem message_handler_empty_text (st : MonitorState)
    (env : Option String) (ev : Event) (lk : LookupFields)
    (log_id : Option String) (h : ev.raw_text.getD "" = "") :
    message_handler st env ev lk log_id = empty_result := by
  unfold message_handler
  rw [h, if_pos rfl]

/-- A non-empty allow-list without the chat id makes the handler return
before any classification. -/
theorem message_handler_channel_blocked (st : MonitorState)
    (env : Option String) (ev : Event) (lk : LookupFields)
    (log_id : Option String)
    (h1 : ¬(st.monitored_channels_set = []))
    (h2 : ¬(toString ev.chat_id ∈ st.monitored_channels_set)) :
    message_handler st env ev lk log_id = empty_result := by
  unfold message_handler
  by_cases ht : ev.raw_text.getD "" = ""
  · rw [ht, if_pos rfl]
  · rw [if_neg ht, if_pos ⟨h1, h2⟩]

/-- Past the two guards the handler is its core. -/
theorem message_handler_eq_core (st : MonitorState) (env : Option String)
    (ev : Event) (lk : LookupFields) (log_id : Option String) (t : String)
    (ht : ev.raw_text = some t) (ht2 : ¬(t = ""))
    (hch : st.monitored_channels_set = [] ∨
      toString ev.chat_id ∈ st.monitored_channels_set) :
    message_handler st env ev lk log_id =
      handler_core st env ev lk log_id t := by
  unfold message_handler
  rw [ht]
  simp only [Option.getD_some]
  rw [if_neg ht2, if_neg]
  rintro ⟨hc1, hc2⟩
  rcases hch with hch | hch
  · exact hc1 hch
  · exact hc2 hch

/-- The matched-keyword list the core reports is the classification. -/
theorem handler_core_matched (st : MonitorState) (env : Option String)
    (ev : Event) (lk : LookupFields) (log_id : Option String)
    (text : String) :
    (handler_core st env ev lk log_id text).matched_keywords =
      (classified st text).2 := by
  simp only [handler_core]
  split <;> rfl

/-- The alert trigger the core reports is the classification. -/
theorem handler_core_alert (st : MonitorState) (env : Option String)
    (ev : Event) (lk : LookupFields) (log_id : Option String)
    (text : String) :
    (handler_core st env ev lk log_id text).alert_keyword =
      (classified st text).1 := by
  simp only [handler_core]
  split <;> rfl

/-- C10: for every inbound event whose text is empty or absent, the
message handler returns before any classification or dispatch: no
persist record, no notify, alert or AI-trigger task, and no matches,
even when log_all_messages is true. -/
theorem c10_theorem (st : MonitorState) (env : Option String) (ev : Event)
    (lk : LookupFields) (log_id : Option String)
    (h : ev.raw_text = none ∨ ev.raw_text = some "") :
    message_handler st env ev lk log_id = empty_result := by
  apply message_handler_empty_text
  rcases h with h | h <;> rw [h] <;> rfl

/-- C10 witness: a media-only (no-text) event in a state with
log_all_messages true produces the empty result. -/
theorem c10_witness :
    ((mk_event none).raw_text = none ∨ (mk_event none).raw_text = some "") ∧
    message_handler ex1_state none (mk_event none) lk_none (some "L1") =
      empty_result :=
  ⟨Or.inl rfl,
   c10_theorem ex1_state none (mk_event none) lk_none (some "L1")
     (Or.inl rfl)⟩

/-- C6: when the channel allow-list is non-empty and the event's channel
id is not a member, processing yields no keyword matches, no alert
trigger, and dispatches no persist, notify, alert-push or AI-trigger
task. -/
theorem c6_theorem (st : MonitorState) (env : Option String) (ev : Event)
    (lk : LookupFields) (log_id : Option String)
    (h1 : ¬(st.monitored_channels_set = []))
    (h2 : ¬(toString ev.chat_id ∈ st.monitored_channels_set)) :
    (message_handler st env ev lk log_id).matched_keywords = [] ∧
    (message_handler st env ev lk log_id).alert_keyword = none ∧
    (message_handler st env ev lk log_id).persist = none ∧
    (message_handler st env ev lk log_id).notify = none ∧
    (message_handler st env ev lk log_id).alert_push = none ∧
    (message_handler st env ev lk log_id).ai_trigger_task = false := by
  rw [message_handler_channel_blocked st env ev lk log_id h1 h2]
  exact ⟨rfl, rfl, rfl, rfl, rfl, rfl⟩

/-- C6 witness: with allow-list containing only channel 99, an event in
channel 7 is dropped entirely. -/
theorem c6_witness :
    ¬(ex6_state.monitored_channels_set = []) ∧
    ¬(toString (mk_event (some "hello")).chat_id ∈
        ex6_state.monitored_channels_set) ∧
    (message_handler ex6_state none (mk_event (some "hello")) lk_none
        (some "L1")).persist = none :=
  ⟨by decide, by decide,
   (c6_theorem ex6_state none (mk_event (some "hello")) lk_none
     (some "L1") (by decide) (by decide)).2.2.1⟩

/-- C2 counterexample: the push-reload endpoint does not always
recompile.  After a successful load at mtime 1, a reload notification
finding the same mtime returns with the state unchanged even though the
source now parses to different rules, so the new rules are not
published. -/
theorem c2_counterexample :
    handle_config_reload (ReadResult.file 1 (some ex_raw_zzz))
        ex_state_abc = ex_state_abc ∧
    ¬(ex_state_abc.config_cache = some (normalize_config ex_raw_zzz)) := by
  constructor
  · decide
  · decide

/-- C2 (amended): the push endpoint immediately runs the loader, but the
loader skips recompilation whenever a config is cached and the source's
modification time is unchanged, returning the state untouched; it
recompiles and publishes only when no config is cached or the
modification time changed. -/
theorem c2_theorem (st : MonitorState) (m : Nat)
    (parsed : Option RawConfig) (raw : RawConfig)
    (h1 : st.config_cache.isSome = true) (h2 : st.config_mtime = m) :
    handle_config_reload (ReadResult.file m parsed) st = st ∧
    (∀ st2 : MonitorState,
      ¬(st2.config_cache.isSome ∧ m = st2.config_mtime) →
      (handle_config_reload (ReadResult.file m (some raw))
          st2).config_cache = some (normalize_config raw)) := by
  constructor
  · simp only [handle_config_reload, load_config_sync]
    rw [if_pos ⟨h1, h2.symm⟩]
  · intro st2 hg
    simp only [handle_config_reload, load_config_sync]
    rw [if_neg hg]

/-- C2 witness: at the state published by a first load, a push reload
with the same mtime is a no-op, while a fresh state accepts the new
rules. -/
theorem c2_witness :
    handle_config_reload (ReadResult.file 1 (some ex_raw_zzz))
        ex_state_abc = ex_state_abc ∧
    (handle_config_reload (ReadResult.file 1 (some ex_raw_zzz))
        initial_state).config_cache = some (normalize_config ex_raw_zzz) :=
  ⟨(c2_theorem ex_state_abc 1 (some ex_raw_zzz) ex_raw_zzz (by decide)
      (by decide)).1,
   (c2_theorem ex_state_abc 1 (some ex_raw_zzz) ex_raw_zzz (by decide)
      (by decide)).2 initial_state (by decide)⟩

/-- C8: when the source is absent, a directory, or (past the
unchanged-mtime fast path) has contents that fail to parse, the loader
publishes the safe default snapshot — log_all_messages true and empty
keyword, alert, regex and channel lists — with an empty compiled-pattern
list, and returns normally (the transition is a total function). -/
theorem c8_theorem (st : MonitorState) (rr : ReadResult)
    (h : rr = ReadResult.absent ∨ rr = ReadResult.isDir ∨
      ∃ m, rr = ReadResult.file m none ∧
        ¬(st.config_cache.isSome ∧ m = st.config_mtime)) :
    (load_config_sync rr st).config_cache = some default_config ∧
    (load_config_sync rr st).compiled_alert_regex = [] ∧
    default_config.log_all_messages = true ∧
    default_config.keywords = [] ∧
    default_config.alert_keywords = [] ∧
    default_config.alert_regex = [] ∧
    default_config.channels = [] := by
  rcases h with rfl | rfl | ⟨m, rfl, hg⟩
  · exact ⟨rfl, rfl, rfl, rfl, rfl, rfl, rfl⟩
  · exact ⟨rfl, rfl, rfl, rfl, rfl, rfl, rfl⟩
  · simp only [load_config_sync]
    rw [if_neg hg]
    exact ⟨rfl, rfl, rfl, rfl, rfl, rfl, rfl⟩

/-- C8 witness: a malformed read at a fresh mtime over the state of a
previous good load publishes the default snapshot. -/
theorem c8_witness :
    (load_config_sync (ReadResult.file 2 none) ex_state_abc).config_cache
      = some default_config ∧
    (load_config_sync (ReadResult.file 2 none)
        ex_state_abc).compiled_alert_regex = [] :=
  ⟨(c8_theorem ex_state_abc (ReadResult.file 2 none)
      (Or.inr (Or.inr ⟨2, rfl, by decide⟩))).1,
   (c8_theorem ex_state_abc (ReadResult.file 2 none)
      (Or.inr (Or.inr ⟨2, rfl, by decide⟩))).2.1⟩

/-- C3 counterexample: after a successful load of a one-keyword rule set,
a failed load (malformed contents at a new mtime) resets the cached
config and compiled patterns to defaults but leaves the pre-lowered
keyword list from the previous snapshot in place, so the published state
mixes fields of two snapshots and is not the projection of any single
config. -/
theorem c3_counterexample :
    ¬ state_coherent (load_config_sync (ReadResult.file 2 none)
        ex_state_abc) := by
  rintro ⟨cfg, h1, h2, -, -, -⟩
  have e1 : (load_config_sync (ReadResult.file 2 none)
      ex_state_abc).config_cache = some default_config := by decide
  rw [e1] at h1
  injection h1 with h1
  have e2 : (load_config_sync (ReadResult.file 2 none)
      ex_state_abc).keywords_lc = ["abc"] := by decide
  rw [e2, ← h1] at h2
  exact absurd h2 (by decide)

/-- C3 (amended): a successful load — or the unchanged-mtime skip —
always publishes a coherent state (every derived field the projection of
the one cached config); only the failure paths can leave the mixed state
exhibited by the counterexample. -/
theorem c3_theorem (st : MonitorState) (m : Nat) (raw : RawConfig)
    (h : state_coherent st) :
    state_coherent (load_config_sync (ReadResult.file m (some raw)) st) := by
  simp only [load_config_sync]
  by_cases hg : st.config_cache.isSome = true ∧ m = st.config_mtime
  · rw [if_pos hg]
    exact h
  · rw [if_neg hg]
    exact ⟨normalize_config raw, rfl, rfl, rfl, rfl, rfl⟩

/-- C3 witness: the state of the first load is coherent and stays
coherent across a further successful load. -/
theorem c3_witness :
    state_coherent ex_state_abc ∧
    state_coherent (load_config_sync (ReadResult.file 3 (some ex_raw_zzz))
        ex_state_abc) :=
  ⟨⟨normalize_config ex_raw_abc, rfl, rfl, rfl, rfl, rfl⟩,
   c3_theorem ex_state_abc 3 ex_raw_zzz
     ⟨normalize_config ex_raw_abc, rfl, rfl, rfl, rfl, rfl⟩⟩

/-- C7: each regex pattern is compiled independently with the
case-insensitive flag; the compiled list is exactly the patterns that
compile (in order), the skipped-with-warning list is exactly the ones
that fail, so one bad pattern never aborts the load; on the inputs
paren and ok-dot-star, exactly one pattern compiles and one is
skipped. -/
theorem c7_theorem :
    (∀ ps : List String,
      (compile_alert_regex ps).1 = ps.filterMap re_compile) ∧
    (∀ ps : List String,
      (compile_alert_regex ps).2 =
        ps.filter (fun p => (re_compile p).isNone)) ∧
    (∀ (ps : List String), ∀ cp ∈ (compile_alert_regex ps).1,
      cp.ignoreCase = true) ∧
    (compile_alert_regex ["(", "ok.*"]).1.map (fun cp => cp.pattern) =
      ["ok.*"] ∧
    (compile_alert_regex ["(", "ok.*"]).2 = ["("] := by
  have ha : ∀ ps : List String,
      (compile_alert_regex ps).1 = ps.filterMap re_compile := by
    intro ps
    induction ps with
    | nil => rfl
    | cons p rest ih =>
      simp only [compile_alert_regex, List.filterMap_cons]
      cases hc : re_compile p <;> simp [hc, ih]
  have hb : ∀ ps : List String,
      (compile_alert_regex ps).2 =
        ps.filter (fun p => (re_compile p).isNone) := by
    intro ps
    induction ps with
    | nil => rfl
    | cons p rest ih =>
      simp only [compile_alert_regex, List.filter_cons]
      cases hc : re_compile p <;> simp [hc, ih]
  refine ⟨ha, hb, ?_, by decide, by decide⟩
  intro ps cp hcp
  rw [ha ps] at hcp
  rcases List.mem_filterMap.mp hcp with ⟨p, hmem, hpc⟩
  unfold re_compile at hpc
  cases hpp : parse_pieces p.data with
  | none =>
    rw [hpp] at hpc
    simp at hpc
  | some l =>
    rw [hpp] at hpc
    simp only [Option.map_some'] at hpc
    injection hpc with hpc
    rw [← hpc]

/-- C7 witness: the valid pattern of the partial-compile scenario has
the compiled list of the loader, and its membership there carries the
case-insensitive flag. -/
theorem c7_witness :
    ({ pattern := "ok.*", ignoreCase := true,
       pieces := [RPiece.once (RAtom.rchar 'o'),
                  RPiece.once (RAtom.rchar 'k'),
                  RPiece.star RAtom.rdot] } : CompiledPattern) ∈
      (compile_alert_regex ["(", "ok.*"]).1 ∧
    ({ pattern := "ok.*", ignoreCase := true,
       pieces := [RPiece.once (RAtom.rchar 'o'),
                  RPiece.once (RAtom.rchar 'k'),
                  RPiece.star RAtom.rdot] } : CompiledPattern).ignoreCase
      = true :=
  ⟨by decide, c7_theorem.2.2.1 ["(", "ok.*"] _ (by decide)⟩

/-- C4 counterexample: with no alert keywords and the single alert
pattern of one literal character, the trigger returned for a matching
text is the raw pattern text, not the regex-prefixed form the claim
states. -/
theorem c4_counterexample :
    (message_handler ex4r_state none (mk_event (some "a")) lk_none
        none).alert_keyword = some "a" ∧
    ¬((message_handler ex4r_state none (mk_event (some "a")) lk_none
        none).alert_keyword = some ("regex:" ++ "a")) := by
  exact ⟨by decide, by decide⟩

/-- C4 (amended): the alert trigger is the first alert keyword (declared
order, case-insensitive substring, original casing) and only if none
matches the first matching alert pattern; the keyword trigger is
deduplicated into the matched list, while a regex hit makes the raw
pattern text the trigger and appends the regex-prefixed pseudo-entry to
the matched list; on alert keywords urgent and sell with the tie-break
text, the trigger is urgent. -/
theorem c4_theorem :
    (∀ (alert_list : List String) (compiled : List CompiledPattern)
        (text_lc text : String) (matched0 : List String),
      determine_alert (alert_list.map str_lower) alert_list compiled
          text_lc text matched0 =
        match alert_list.find? (fun k =>
            !(str_lower k == "") && str_contains text_lc (str_lower k)) with
        | some ak =>
          (some ak, if ak ∈ matched0 then matched0 else matched0 ++ [ak])
        | none =>
          match compiled.find? (fun cp => re_search cp text) with
          | some cp =>
            (some cp.pattern, matched0 ++ ["regex:" ++ cp.pattern])
          | none => (none, matched0)) ∧
    (message_handler ex4_state none (mk_event (some "urgent sell now"))
        lk_none none).alert_keyword = some "urgent" ∧
    (message_handler ex4r_state none (mk_event (some "a")) lk_none
        none).matched_keywords = ["regex:a"] := by
  refine ⟨?_, by decide, by decide⟩
  intro alert_list compiled text_lc text matched0
  have h1 := find_alert_keyword_eq text_lc alert_list []
  simp only [List.nil_append, List.length_nil] at h1
  unfold determine_alert
  rw [h1, find_alert_regex_eq]

/-- C1 counterexample: a message with zero keyword matches and no alert
trigger, under log_all_messages true, from a sender on the AI-trigger
list, does get an AI-trigger task scheduled — refuting the claim that no
AiTrigger task is created regardless of the sender. -/
theorem c1_counterexample :
    (message_handler ex1_state none (mk_event (some "hello")) lk_none
        (some "L1")).matched_keywords = [] ∧
    (ex1_state.config_cache.getD default_config).log_all_messages = true ∧
    (message_handler ex1_state none (mk_event (some "hello")) lk_none
        (some "L1")).alert_keyword = none ∧
    (message_handler ex1_state none (mk_event (some "hello")) lk_none
        (some "L1")).ai_trigger_task = true := by
  exact ⟨by decide, by decide, by decide, by decide⟩

/-- C1 (amended): for an event with zero matches and no alert trigger,
when log_all_messages is true a persist task with an empty keyword list
is dispatched and no alert-push task is created; an AI-trigger task is
created exactly when the sender is an AI-trigger user and the persist
returned a log id. -/
theorem c1_theorem (st : MonitorState) (env : Option String) (ev : Event)
    (lk : LookupFields) (log_id : Option String) (t : String)
    (ht : ev.raw_text = some t) (ht2 : ¬(t = ""))
    (hch : st.monitored_channels_set = [] ∨
      toString ev.chat_id ∈ st.monitored_channels_set)
    (hlog : (st.config_cache.getD default_config).log_all_messages = true)
    (hm : (message_handler st env ev lk log_id).matched_keywords = []) :
    (message_handler st env ev lk log_id).persist =
      some (save_log_doc env (st.config_cache.getD default_config)
        (resolve_channel_name ev) (toString ev.chat_id)
        (resolve_sender_display ev lk) t [] ev.message_id) ∧
    (message_handler st env ev lk log_id).alert_push = none ∧
    (message_handler st env ev lk log_id).ai_trigger_task =
      (is_trigger_user_of (st.config_cache.getD default_config) ev lk &&
        log_id.isSome) := by
  have hcore := message_handler_eq_core st env ev lk log_id t ht ht2 hch
  rw [hcore] at hm ⊢
  rw [handler_core_matched] at hm
  have hda := determine_alert_of_nil st.alert_keywords_lc
    (st.config_cache.getD default_config).alert_keywords
    st.compiled_alert_regex (str_lower t) t
    (match_monitor_keywords (st.config_cache.getD default_config).keywords
      (str_lower t) st.keywords_lc 0)
    (by simpa [classified] using hm)
  have hfst : (classified st t).1 = none := by
    simpa [classified] using hda.1
  refine ⟨?_, ?_, ?_⟩
  · simp only [handler_core]
    rw [if_pos (Or.inr hlog)]
    simp only [hm]
  · simp only [handler_core]
    rw [if_pos (Or.inr hlog)]
    simp only [hfst, Option.map_none']
  · simp only [handler_core]
    rw [if_pos (Or.inr hlog)]

/-- C1 witness: at the counterexample input (no matches, log-all on,
AI-trigger sender, insert succeeded), the amended statement yields the
empty-keyword persist document, no alert push, and an AI-trigger task. -/
theorem c1_witness :
    (message_handler ex1_state none (mk_event (some "hello")) lk_none
        (some "L1")).persist =
      some (save_log_doc none (ex1_state.config_cache.getD default_config)
        (resolve_channel_name (mk_event (some "hello")))
        (toString (mk_event (some "hello")).chat_id)
        (resolve_sender_display (mk_event (some "hello")) lk_none)
        "hello" [] (mk_event (some "hello")).message_id) ∧
    (message_handler ex1_state none (mk_event (some "hello")) lk_none
        (some "L1")).alert_push = none ∧
    (message_handler ex1_state none (mk_event (some "hello")) lk_none
        (some "L1")).ai_trigger_task =
      (is_trigger_user_of (ex1_state.config_cache.getD default_config)
        (mk_event (some "hello")) lk_none && (some "L1").isSome) :=
  c1_theorem ex1_state none (mk_event (some "hello")) lk_none (some "L1")
    "hello" rfl (by decide) (Or.inl rfl) (by decide) (by decide)

/-- C5: every monitor keyword of the published snapshot whose lowercase
form is a substring of the lowercase event text appears in the matched
keyword list — all matches are collected, not just the first. -/
theorem c5_theorem (st : MonitorState) (env : Option String) (ev : Event)
    (lk : LookupFields) (log_id : Option String) (cfg : Config)
    (t k : String)
    (hco : state_coherent st) (hcfg : st.config_cache = some cfg)
    (hnorm : ∀ x ∈ cfg.keywords, ¬(py_strip x = ""))
    (ht : ev.raw_text = some t) (ht2 : ¬(t = ""))
    (hch : st.monitored_channels_set = [] ∨
      toString ev.chat_id ∈ st.monitored_channels_set)
    (hk : k ∈ cfg.keywords)
    (hsub : str_contains (str_lower t) (str_lower k) = true) :
    k ∈ (message_handler st env ev lk log_id).matched_keywords := by
  obtain ⟨cfg2, hc1, hc2, -, -, -⟩ := hco
  rw [hcfg] at hc1
  injection hc1 with hc1
  subst hc1
  rw [message_handler_eq_core st env ev lk log_id t ht ht2 hch,
    handler_core_matched]
  simp only [classified, hcfg, Option.getD_some]
  apply determine_alert_mono
  rw [hc2, precompute_lc_of_normalized cfg.keywords hnorm]
  have hne : ¬(str_lower k = "") := by
    apply str_lower_ne_empty
    intro he
    apply hnorm k hk
    rw [he]
    rfl
  have hmem := mem_match_monitor_keywords (str_lower t) cfg.keywords [] k
    hk hne hsub
  simpa using hmem

/-- C5 witness: the keyword Invoice, lowercased, occurs in the lowered
text and lands in the matched list with its original casing. -/
theorem c5_witness :
    "Invoice" ∈ (message_handler ex5_state none
      (mk_event (some "the invoice here")) lk_none
        none).matched_keywords :=
  c5_theorem ex5_state none (mk_event (some "the invoice here")) lk_none
    none ex5_cfg "the invoice here" "Invoice"
    ⟨ex5_cfg, rfl, rfl, rfl, rfl, rfl⟩ rfl (by decide) rfl (by decide)
    (Or.inl rfl) (by decide) (by decide)

/-- C9: in every persist document and every notify payload the handler
builds, the alerted flag holds exactly when the matched-keyword list is
non-empty — so it is true for a message matching only monitor keywords,
and false exactly when nothing matched. -/
theorem c9_theorem (st : MonitorState) (env : Option String) (ev : Event)
    (lk : LookupFields) (log_id : Option String) :
    (∀ d, (message_handler st env ev lk log_id).persist = some d →
      (d.alerted = true ↔
        ¬((message_handler st env ev lk log_id).matched_keywords = []))) ∧
    (∀ p, (message_handler st env ev lk log_id).notify = some p →
      (p.alerted = true ↔
        ¬((message_handler st env ev lk log_id).matched_keywords = []))) := by
  simp only [message_handler]
  split
  · exact ⟨fun d hd => by simp [empty_result] at hd,
           fun p hp => by simp [empty_result] at hp⟩
  · split
    · exact ⟨fun d hd => by simp [empty_result] at hd,
             fun p hp => by simp [empty_result] at hp⟩
    · simp only [handler_core]
      split
      · constructor
        · intro d hd
          simp only [Option.some.injEq] at hd
          subst hd
          simp [save_log_doc]
        · intro p hp
          cases log_id with
          | none => simp at hp
          | some lid =>
            simp only [Option.map_some', Option.some.injEq] at hp
            subst hp
            simp
      · exact ⟨fun d hd => by simp at hd, fun p hp => by simp at hp⟩

/-- C9 witness: the persisted document of a monitor-only match has
alerted true, agreeing with its non-empty matched list. -/
theorem c9_witness :
    (message_handler ex5_state none (mk_event (some "the invoice here"))
        lk_none (some "L1")).persist = some
      ({ channel := "Chan"
         channelId := "7"
         sender := "42"
         message := "the invoice here"
         keywords := ["Invoice"]
         messageId := 5
         alerted := true
         ai_analyzed := false
         userId := none } : PersistDoc) ∧
    (({ channel := "Chan"
        channelId := "7"
        sender := "42"
        message := "the invoice here"
        keywords := ["Invoice"]
        messageId := 5
        alerted := true
        ai_analyzed := false
        userId := none } : PersistDoc).alerted = true ↔
      ¬((message_handler ex5_state none (mk_event (some "the invoice here"))
          lk_none (some "L1")).matched_keywords = [])) :=
  ⟨by decide,
   (c9_theorem ex5_state none (mk_event (some "the invoice here")) lk_none
     (some "L1")).1 _ (by decide)⟩
